import Mathlib

/-!
Shallow embedding of `src/hardware/diffbot_system.cpp` from the
`diffdrive_mini_ocebot` repository: a ros2_control hardware plugin for a
two-wheeled differential-drive robot.  The lifecycle callbacks
(`on_init`, `on_configure`, `on_activate`, `on_deactivate`, `on_shutdown`)
and the periodic `read`/`write` entry points are modelled as pure
functions over an explicit component state.  External effects are passed
in as oracle arguments: the result of `pigpio_start` (the daemon
connection attempt), the results of the two `set_mode` calls, and the
result of the framework base-class `SystemInterface::on_init`.
C++ `double` arithmetic is modelled over the real numbers; thrown C++
exceptions are modelled with `Except`.
-/

namespace DiffDrive

/-- `hardware_interface::CallbackReturn` (rclcpp_lifecycle). -/
inductive CallbackReturn
  | SUCCESS
  | ERROR
  | FAILURE
  deriving DecidableEq, Repr

/-- `hardware_interface::return_type`. -/
inductive ReturnType
  | OK
  | ERROR
  | DEACTIVATE
  deriving DecidableEq, Repr

/-- A C++ exception escaping a lifecycle callback.  `std::stoi` /
`std::stoul` throw `std::invalid_argument` when no conversion can be
performed.  (`std::out_of_range` for values outside the machine-integer
range is not modelled: no claim involves it, and the embedding keeps
unbounded integers.) -/
inductive CppException
  | invalid_argument
  deriving DecidableEq, Repr

/-- `hardware_interface::HW_IF_POSITION`. -/
def HW_IF_POSITION : String := "position"

/-- `hardware_interface::HW_IF_VELOCITY`. -/
def HW_IF_VELOCITY : String := "velocity"

/-- `hardware_interface::InterfaceInfo` — only the `name` field is read
by this plugin. -/
structure InterfaceInfo where
  name : String
  deriving DecidableEq, Repr

/-- `hardware_interface::ComponentInfo` for one joint — the fields read
by `on_init`. -/
structure ComponentInfo where
  name : String
  command_interfaces : List InterfaceInfo
  state_interfaces : List InterfaceInfo
  deriving DecidableEq, Repr

/-- `hardware_interface::HardwareInfo` — the configuration input:
string-keyed hardware parameters plus the declared joints. -/
structure HardwareInfo where
  hardware_parameters : List (String × String)
  joints : List ComponentInfo
  deriving DecidableEq, Repr

/-- `info_.hardware_parameters[key]`: `std::unordered_map::operator[]`
returns the mapped string, default-constructing an empty string when the
key is absent. -/
def getParam (params : List (String × String)) (key : String) : String :=
  (params.lookup key).getD ""

/-- Value of a maximal leading run of decimal digits, given an
accumulator (the conversion loop shared by `stoi` and `stoul`). -/
def digitsValAux : List Char → Nat → Nat
  | [], acc => acc
  | c :: cs, acc =>
      if c.isDigit then digitsValAux cs (acc * 10 + (c.toNat - 48)) else acc

/-- Whether the list starts with a decimal digit (whether any conversion
can be performed at all). -/
def hasDigitHead : List Char → Bool
  | [] => false
  | c :: _ => c.isDigit

/-- `std::stoi` (base 10): skip leading whitespace, accept an optional
sign, then convert the maximal digit prefix; throw
`std::invalid_argument` when no digit is found (in particular on the
empty string produced by a missing parameter). -/
def stoi (s : String) : Except CppException Int :=
  let cs := s.data.dropWhile Char.isWhitespace
  match cs with
  | '-' :: rest =>
      if hasDigitHead rest then .ok (-(digitsValAux rest 0 : Int))
      else .error .invalid_argument
  | '+' :: rest =>
      if hasDigitHead rest then .ok (digitsValAux rest 0 : Int)
      else .error .invalid_argument
  | _ =>
      if hasDigitHead cs then .ok (digitsValAux cs 0 : Int)
      else .error .invalid_argument

/-- `std::stoul` (base 10): like `stoi` but producing an `unsigned
long`; a leading minus sign wraps around modulo 2^64 as the C++
conversion does. -/
def stoul (s : String) : Except CppException Nat :=
  let cs := s.data.dropWhile Char.isWhitespace
  match cs with
  | '-' :: rest =>
      if hasDigitHead rest then
        .ok ((2 ^ 64 - digitsValAux rest 0 % 2 ^ 64) % 2 ^ 64)
      else .error .invalid_argument
  | '+' :: rest =>
      if hasDigitHead rest then .ok (digitsValAux rest 0 % 2 ^ 64)
      else .error .invalid_argument
  | _ =>
      if hasDigitHead cs then .ok (digitsValAux cs 0 % 2 ^ 64)
      else .error .invalid_argument

/-- The `Config` member struct `cfg_` of `DiffBotSystemHardware`:
wheel names, GPIO pins, encoder resolution, and the pigpio daemon
handle `pi` (negative means "not connected"). -/
structure Config where
  pi : Int
  left_wheel_name : String
  right_wheel_name : String
  left_wheel_pin : Int
  right_wheel_pin : Int
  enc_counts_per_rev : Nat
  deriving DecidableEq, Repr

/-- Per-wheel state (`wheel_left_` / `wheel_right_`): identity, encoder
resolution, the raw encoder tick count visible through the wheel-local
accessor, and the exported position / velocity / command values
(C++ `double`, modelled as real numbers). -/
structure Wheel where
  name : String
  counts_per_rev : Nat
  enc : Int
  pos : ℝ
  vel : ℝ
  cmd : ℝ

/-- Modelled from the spec: `Wheel::setup(name, counts_per_revolution)`
(the wheel class is declared in a header that is not under `src/`).
Per §4.2 it "sets identity and resolution, zeroes
position/velocity/command" and reports no failure. -/
def Wheel.setup (w : Wheel) (name : String) (cpr : Nat) : Wheel :=
  { w with name := name, counts_per_rev := cpr, pos := 0, vel := 0, cmd := 0 }

/-- Modelled from the spec: `Wheel::calc_enc_angle()` (defined in the
wheel class, not under `src/`): "convert to angular position as
`position = ticks / counts_per_revolution * 2π`". -/
noncomputable def Wheel.calc_enc_angle (w : Wheel) : ℝ :=
  (w.enc : ℝ) / (w.counts_per_rev : ℝ) * (2 * Real.pi)

/-- The whole observable component state: the config struct, the two
wheels, and whether the pigpio daemon connection underlying `cfg_.pi`
is currently open (`pigpio_start` opens it, `pigpio_stop` releases it). -/
structure Sys where
  cfg : Config
  wheel_left : Wheel
  wheel_right : Wheel
  daemon_connected : Bool

/-- One joint conforms when it carries exactly one command interface
named `velocity` and exactly two state interfaces named `position` then
`velocity` — the five sequential checks of the `on_init` loop body,
each of which returns `ERROR` on failure. -/
def jointOk (j : ComponentInfo) : Bool :=
  match j.command_interfaces, j.state_interfaces with
  | [ci], [s0, s1] =>
      ci.name == HW_IF_VELOCITY && s0.name == HW_IF_POSITION &&
        s1.name == HW_IF_VELOCITY
  | _, _ => false

/-- The `for` loop over `info_.joints` in `on_init`: returns `ERROR` at
the first non-conforming joint, `SUCCESS` after the loop. -/
def checkJoints : List ComponentInfo → CallbackReturn
  | [] => .SUCCESS
  | j :: rest => if jointOk j then checkJoints rest else .ERROR

/-- `DiffBotSystemHardware::on_init`.  Oracle arguments: `parentOk` is
whether `SystemInterface::on_init(info)` returned `SUCCESS`, and
`piResult` is the handle returned by `pigpio_start(NULL, NULL)`
(negative on connection failure).  A thrown `std::invalid_argument`
from `std::stoi`/`std::stoul` surfaces as `Except.error`. -/
def on_init (parentOk : Bool) (piResult : Int) (info : HardwareInfo)
    (s : Sys) : Except CppException (Sys × CallbackReturn) := do
  if parentOk = false then
    return (s, .ERROR)
  let s1 : Sys := { s with cfg := { s.cfg with pi := piResult },
                           daemon_connected := decide (0 ≤ piResult) }
  if piResult < 0 then
    return (s1, .ERROR)
  let s2 : Sys := { s1 with cfg := { s1.cfg with
      left_wheel_name := getParam info.hardware_parameters "left_wheel_name",
      right_wheel_name := getParam info.hardware_parameters "right_wheel_name" } }
  let lpin ← stoi (getParam info.hardware_parameters "left_wheel_pin")
  let rpin ← stoi (getParam info.hardware_parameters "right_wheel_pin")
  let cpr ← stoul (getParam info.hardware_parameters "enc_counts_per_rev")
  let s3 : Sys := { s2 with cfg := { s2.cfg with
      left_wheel_pin := lpin, right_wheel_pin := rpin,
      enc_counts_per_rev := cpr } }
  let s4 : Sys := { s3 with
      wheel_left := s3.wheel_left.setup s3.cfg.left_wheel_name s3.cfg.enc_counts_per_rev,
      wheel_right := s3.wheel_right.setup s3.cfg.right_wheel_name s3.cfg.enc_counts_per_rev }
  return (s4, checkJoints info.joints)

/-- `DiffBotSystemHardware::on_configure`.  Oracle arguments `rcLeft`
and `rcRight` are the return codes of the two `set_mode` calls (`0` is
success); the second call happens only when the first succeeds.  On
either failure the code calls `pigpio_stop(cfg_.pi)` (releasing the
daemon connection) before returning `ERROR`. -/
def on_configure (rcLeft rcRight : Int) (s : Sys) : Sys × CallbackReturn :=
  if rcLeft ≠ 0 then
    ({ s with daemon_connected := false }, .ERROR)
  else if rcRight ≠ 0 then
    ({ s with daemon_connected := false }, .ERROR)
  else
    (s, .SUCCESS)

/-- `DiffBotSystemHardware::on_activate`: logs and returns `SUCCESS`. -/
def on_activate (s : Sys) : Sys × CallbackReturn :=
  (s, .SUCCESS)

/-- `DiffBotSystemHardware::on_deactivate`: logs and returns `SUCCESS`. -/
def on_deactivate (s : Sys) : Sys × CallbackReturn :=
  (s, .SUCCESS)

/-- `DiffBotSystemHardware::on_shutdown`: unconditionally calls
`pigpio_stop(cfg_.pi)` (idempotent, safe on an invalid handle) and
returns `SUCCESS`. -/
def on_shutdown (s : Sys) : Sys × CallbackReturn :=
  ({ s with daemon_connected := false }, .SUCCESS)

/-- `DiffBotSystemHardware::read(time, period)`: for each wheel, save
the previous position, recompute the position from the raw encoder
count via `calc_enc_angle`, and set the velocity to the backward
difference over `period.seconds()`. -/
noncomputable def read (delta_seconds : ℝ) (s : Sys) : Sys × ReturnType :=
  let pos_prev_l := s.wheel_left.pos
  let lpos := s.wheel_left.calc_enc_angle
  let lvel := (lpos - pos_prev_l) / delta_seconds
  let pos_prev_r := s.wheel_right.pos
  let rpos := s.wheel_right.calc_enc_angle
  let rvel := (rpos - pos_prev_r) / delta_seconds
  ({ s with
      wheel_left := { s.wheel_left with pos := lpos, vel := lvel },
      wheel_right := { s.wheel_right with pos := rpos, vel := rvel } },
    .OK)

/-- `DiffBotSystemHardware::write(time, period)`: an empty body
returning `return_type::OK` — no state is touched and nothing can
throw. -/
def write (_time _period : ℝ) (s : Sys) : Sys × ReturnType :=
  (s, .OK)

/-! ## Concrete fixtures -/

/-- A default-constructed wheel. -/
def wheel₀ : Wheel :=
  { name := "", counts_per_rev := 0, enc := 0, pos := 0, vel := 0, cmd := 0 }

/-- A freshly constructed component: no daemon handle, empty config. -/
def sys₀ : Sys :=
  { cfg := { pi := -1, left_wheel_name := "", right_wheel_name := "",
             left_wheel_pin := 0, right_wheel_pin := 0,
             enc_counts_per_rev := 0 },
    wheel_left := wheel₀, wheel_right := wheel₀, daemon_connected := false }

/-- A joint conforming to the expected interface shape. -/
def goodJoint (n : String) : ComponentInfo :=
  { name := n,
    command_interfaces := [⟨HW_IF_VELOCITY⟩],
    state_interfaces := [⟨HW_IF_POSITION⟩, ⟨HW_IF_VELOCITY⟩] }

/-- A joint with two command interfaces (violating the shape). -/
def badJoint : ComponentInfo :=
  { name := "left_wheel",
    command_interfaces := [⟨HW_IF_VELOCITY⟩, ⟨HW_IF_VELOCITY⟩],
    state_interfaces := [⟨HW_IF_POSITION⟩, ⟨HW_IF_VELOCITY⟩] }

/-- A complete, well-formed parameter map. -/
def baseParams : List (String × String) :=
  [("left_wheel_name", "left_wheel"), ("right_wheel_name", "right_wheel"),
   ("left_wheel_pin", "17"), ("right_wheel_pin", "27"),
   ("enc_counts_per_rev", "3436")]

/-! ## Helper lemmas -/

theorem checkJoints_eq_success_iff (l : List ComponentInfo) :
    checkJoints l = .SUCCESS ↔ ∀ j ∈ l, jointOk j = true := by
  induction l with
  | nil => simp [checkJoints]
  | cons j rest ih =>
      by_cases h : jointOk j = true <;> simp [checkJoints, h, ih]

theorem checkJoints_eq_error_of_not_success (l : List ComponentInfo)
    (h : checkJoints l ≠ .SUCCESS) : checkJoints l = .ERROR := by
  induction l with
  | nil => simp [checkJoints] at h
  | cons j rest ih =>
      by_cases hj : jointOk j = true
      · simp only [checkJoints, hj, if_true] at h ⊢
        exact ih h
      · simp [checkJoints, hj]

theorem jointOk_iff (j : ComponentInfo) :
    jointOk j = true ↔
      j.command_interfaces.map InterfaceInfo.name = [HW_IF_VELOCITY] ∧
      j.state_interfaces.map InterfaceInfo.name =
        [HW_IF_POSITION, HW_IF_VELOCITY] := by
  obtain ⟨n, cis, sis⟩ := j
  rcases cis with _ | ⟨c0, _ | ⟨c1, cis'⟩⟩ <;>
    rcases sis with _ | ⟨s0, _ | ⟨s1, _ | ⟨s2, sis'⟩⟩⟩ <;>
      simp [jointOk, and_assoc]

/-- The state `on_init` leaves behind on its successful control path. -/
def stateAfterInit (piResult : Int) (info : HardwareInfo) (s : Sys)
    (lpin rpin : Int) (cpr : Nat) : Sys :=
  { cfg := { pi := piResult,
             left_wheel_name := getParam info.hardware_parameters "left_wheel_name",
             right_wheel_name := getParam info.hardware_parameters "right_wheel_name",
             left_wheel_pin := lpin, right_wheel_pin := rpin,
             enc_counts_per_rev := cpr },
    wheel_left := s.wheel_left.setup
        (getParam info.hardware_parameters "left_wheel_name") cpr,
    wheel_right := s.wheel_right.setup
        (getParam info.hardware_parameters "right_wheel_name") cpr,
    daemon_connected := decide (0 ≤ piResult) }

theorem on_init_eval (piResult : Int) (info : HardwareInfo) (s : Sys)
    (hpi : 0 ≤ piResult) {lpin rpin : Int} {cpr : Nat}
    (hl : stoi (getParam info.hardware_parameters "left_wheel_pin") = .ok lpin)
    (hr : stoi (getParam info.hardware_parameters "right_wheel_pin") = .ok rpin)
    (hc : stoul (getParam info.hardware_parameters "enc_counts_per_rev") = .ok cpr) :
    on_init true piResult info s =
      .ok (stateAfterInit piResult info s lpin rpin cpr,
           checkJoints info.joints) := by
  unfold on_init stateAfterInit
  rw [hl, hr, hc]
  simp [Wheel.setup, not_lt.mpr hpi]
  rfl

/-! ## Claim theorems -/

/-- A configuration whose `enc_counts_per_rev` parameter is the string
"0", with well-formed names and pins and two conforming joints. -/
def zeroCprInfo : HardwareInfo :=
  { hardware_parameters :=
      [("left_wheel_name", "left_wheel"), ("right_wheel_name", "right_wheel"),
       ("left_wheel_pin", "17"), ("right_wheel_pin", "27"),
       ("enc_counts_per_rev", "0")],
    joints := [goodJoint "left_wheel", goodJoint "right_wheel"] }

/-- Claim C1 (refuted — code bug): with `enc_counts_per_rev = 0`, a
successful daemon connection and conforming joints, `on_init` returns
`SUCCESS` and sets both wheels up with a zero resolution: nothing in
`on_init` rejects a zero counts-per-revolution value, contrary to the
claim that it must return an error. -/
theorem init_zero_cpr_silently_succeeds :
    (on_init true 0 zeroCprInfo sys₀).map
        (fun p => (p.2, p.1.cfg.enc_counts_per_rev,
                   p.1.wheel_left.counts_per_rev,
                   p.1.wheel_right.counts_per_rev)) =
      .ok (.SUCCESS, 0, 0, 0) := by
  rfl

/-- Well-formed parameters, daemon up, but one joint with two command
interfaces, so joint validation fails. -/
def leakInfo : HardwareInfo :=
  { hardware_parameters := baseParams, joints := [badJoint] }

/-- Claim C2 (refuted — code bug): when the daemon connection succeeds
and a joint then fails interface validation, `on_init` returns `ERROR`
with the daemon connection still open — no error path of `on_init`
calls `pigpio_stop`, so the handle is leaked. -/
theorem init_error_leaks_daemon_connection :
    (on_init true 0 leakInfo sys₀).map
        (fun p => (p.2, p.1.daemon_connected)) =
      .ok (.ERROR, true) := by
  rfl

/-- A configuration with the `left_wheel_pin` parameter missing. -/
def missingPinInfo : HardwareInfo :=
  { hardware_parameters :=
      [("left_wheel_name", "left_wheel"), ("right_wheel_name", "right_wheel"),
       ("right_wheel_pin", "27"), ("enc_counts_per_rev", "3436")],
    joints := [goodJoint "left_wheel", goodJoint "right_wheel"] }

/-- Claim C3 (refuted — code bug): with the `left_wheel_pin` parameter
missing, `operator[]` yields the empty string and `std::stoi` throws
`std::invalid_argument`, which propagates out of `on_init` instead of
being turned into an error return value. -/
theorem init_missing_pin_throws :
    on_init true 0 missingPinInfo sys₀ = .error .invalid_argument := by
  rfl

/-- Claim C4: in every read cycle each wheel's velocity is the exact
backward difference of its positions: with previous position `p0`, new
position `p1` and elapsed time `dt > 0`, the published velocity equals
`(p1 - p0) / dt`. -/
theorem read_velocity_backward_difference (dt : ℝ) (s : Sys) (_hdt : 0 < dt) :
    (read dt s).1.wheel_left.vel =
        ((read dt s).1.wheel_left.pos - s.wheel_left.pos) / dt ∧
    (read dt s).1.wheel_right.vel =
        ((read dt s).1.wheel_right.pos - s.wheel_right.pos) / dt :=
  ⟨rfl, rfl⟩

/-- A wheel one encoder tick into a two-counts-per-revolution encoder:
its angle is π; previous position 0. -/
def halfRevWheel : Wheel :=
  { name := "left_wheel", counts_per_rev := 2, enc := 1,
    pos := 0, vel := 0, cmd := 0 }

/-- A state holding `halfRevWheel` on both sides. -/
def halfRevSys : Sys :=
  { sys₀ with wheel_left := halfRevWheel, wheel_right := halfRevWheel }

theorem read_velocity_backward_difference_witness :
    (0 : ℝ) < 1 / 2 ∧
      ((read (1 / 2) halfRevSys).1.wheel_left.vel =
          ((read (1 / 2) halfRevSys).1.wheel_left.pos -
            halfRevSys.wheel_left.pos) / (1 / 2) ∧
       (read (1 / 2) halfRevSys).1.wheel_right.vel =
          ((read (1 / 2) halfRevSys).1.wheel_right.pos -
            halfRevSys.wheel_right.pos) / (1 / 2)) :=
  ⟨by norm_num,
   read_velocity_backward_difference (1 / 2) halfRevSys (by norm_num)⟩

/-- The spec's worked example: previous position `0`, new position `π`
(one tick at resolution 2), `dt = 1/2` gives velocity `2π`. -/
theorem read_halfRev_example :
    (read (1 / 2) halfRevSys).1.wheel_left.pos = Real.pi ∧
    (read (1 / 2) halfRevSys).1.wheel_left.vel = 2 * Real.pi := by
  refine ⟨?_, ?_⟩ <;>
    simp [read, halfRevSys, halfRevWheel, sys₀, wheel₀, Wheel.calc_enc_angle] <;>
    ring

/-- Claim C5: each wheel's position is recomputed from scratch each
cycle from the raw tick count: for counts-per-revolution `N > 0` and
any raw tick count `T` (of either sign), the position published by
`read` is `T / N * 2π`, independent of previously published
positions (the right-hand side mentions only `enc` and
`counts_per_rev`, not the prior `pos`/`vel`). -/
theorem read_position_from_raw_ticks (dt : ℝ) (s : Sys)
    (_hl : 0 < s.wheel_left.counts_per_rev)
    (_hr : 0 < s.wheel_right.counts_per_rev) :
    (read dt s).1.wheel_left.pos =
        (s.wheel_left.enc : ℝ) / (s.wheel_left.counts_per_rev : ℝ) *
          (2 * Real.pi) ∧
    (read dt s).1.wheel_right.pos =
        (s.wheel_right.enc : ℝ) / (s.wheel_right.counts_per_rev : ℝ) *
          (2 * Real.pi) :=
  ⟨rfl, rfl⟩

/-- A wheel with a negative raw tick count (reverse rotation) and a
nonzero previously published position. -/
def negTickWheel : Wheel :=
  { name := "right_wheel", counts_per_rev := 2, enc := -3,
    pos := 5, vel := 0, cmd := 0 }

/-- A state holding `negTickWheel` on both sides. -/
def negTickSys : Sys :=
  { sys₀ with wheel_left := negTickWheel, wheel_right := negTickWheel }

theorem read_position_from_raw_ticks_witness :
    0 < negTickSys.wheel_left.counts_per_rev ∧
      ((read 1 negTickSys).1.wheel_left.pos =
          (negTickSys.wheel_left.enc : ℝ) /
            (negTickSys.wheel_left.counts_per_rev : ℝ) * (2 * Real.pi) ∧
       (read 1 negTickSys).1.wheel_right.pos =
          (negTickSys.wheel_right.enc : ℝ) /
            (negTickSys.wheel_right.counts_per_rev : ℝ) * (2 * Real.pi)) :=
  ⟨by decide, read_position_from_raw_ticks 1 negTickSys (by decide) (by decide)⟩

/-- Claim C6: on any pin-configuration failure (either `set_mode` call
reporting a nonzero code), `on_configure` releases the daemon
connection (`pigpio_stop`) and returns an error, leaving the link
disconnected. -/
theorem configure_releases_connection_on_failure (rcL rcR : Int) (s : Sys)
    (h : rcL ≠ 0 ∨ rcR ≠ 0) :
    (on_configure rcL rcR s).2 = .ERROR ∧
    (on_configure rcL rcR s).1.daemon_connected = false := by
  by_cases h1 : rcL ≠ 0
  · simp [on_configure, h1]
  · have h2 : rcR ≠ 0 := h.resolve_left h1
    simp [on_configure, h1, h2]

/-- A state whose daemon connection is open (handle 0). -/
def connectedSys : Sys :=
  { sys₀ with cfg := { sys₀.cfg with pi := 0 }, daemon_connected := true }

theorem configure_releases_connection_on_failure_witness :
    ((1 : Int) ≠ 0 ∨ (0 : Int) ≠ 0) ∧
      ((on_configure 1 0 connectedSys).2 = .ERROR ∧
       (on_configure 1 0 connectedSys).1.daemon_connected = false) :=
  ⟨Or.inl (by decide),
   configure_releases_connection_on_failure 1 0 connectedSys
     (Or.inl (by decide))⟩

/-- Claim C7: `on_shutdown` is total and idempotent: from any state it
returns `SUCCESS` (never an error), releases the daemon link
unconditionally, and a second call does exactly the same. -/
theorem shutdown_idempotent_total (s : Sys) :
    (on_shutdown s).2 = .SUCCESS ∧
    (on_shutdown s).1.daemon_connected = false ∧
    on_shutdown (on_shutdown s).1 = on_shutdown s :=
  ⟨rfl, rfl, rfl⟩

/-- Claim C8: `write` is a no-op: for every time/period argument and
every state (hence every pair of wheel command values) it returns `OK`
and leaves the whole state — in particular both wheels' exported
position and velocity — unchanged; its embedding is a total function,
so nothing is thrown. -/
theorem write_noop (t p : ℝ) (s : Sys) :
    write t p s = (s, .OK) ∧
    (write t p s).1.wheel_left.pos = s.wheel_left.pos ∧
    (write t p s).1.wheel_left.vel = s.wheel_left.vel ∧
    (write t p s).1.wheel_right.pos = s.wheel_right.pos ∧
    (write t p s).1.wheel_right.vel = s.wheel_right.vel :=
  ⟨rfl, rfl, rfl, rfl, rfl⟩

/-- Claim C9: when `on_init` reaches joint validation (parent init ok,
daemon connected, parameters parsed), it returns `SUCCESS` exactly when
every joint exposes one command interface named `velocity` and two
state interfaces named `position` then `velocity`; otherwise it returns
`ERROR`. -/
theorem init_validates_interface_shape (piResult : Int) (info : HardwareInfo)
    (s : Sys) (hpi : 0 ≤ piResult) {lpin rpin : Int} {cpr : Nat}
    (hl : stoi (getParam info.hardware_parameters "left_wheel_pin") = .ok lpin)
    (hr : stoi (getParam info.hardware_parameters "right_wheel_pin") = .ok rpin)
    (hc : stoul (getParam info.hardware_parameters "enc_counts_per_rev") = .ok cpr) :
    ((on_init true piResult info s).map Prod.snd = .ok .SUCCESS ↔
      ∀ j ∈ info.joints,
        j.command_interfaces.map InterfaceInfo.name = [HW_IF_VELOCITY] ∧
        j.state_interfaces.map InterfaceInfo.name =
          [HW_IF_POSITION, HW_IF_VELOCITY]) ∧
    ((on_init true piResult info s).map Prod.snd = .ok .SUCCESS ∨
     (on_init true piResult info s).map Prod.snd = .ok .ERROR) := by
  rw [on_init_eval piResult info s hpi hl hr hc]
  simp only [Except.map, Except.ok.injEq]
  constructor
  · rw [checkJoints_eq_success_iff]
    exact forall₂_congr fun j _ => jointOk_iff j
  · by_cases hck : checkJoints info.joints = .SUCCESS
    · exact Or.inl hck
    · exact Or.inr (checkJoints_eq_error_of_not_success _ hck)

/-- A fully well-formed configuration with the two expected joints. -/
def goodInfo : HardwareInfo :=
  { hardware_parameters := baseParams,
    joints := [goodJoint "left_wheel", goodJoint "right_wheel"] }

theorem init_validates_interface_shape_witness :
    (on_init true 0 goodInfo sys₀).map Prod.snd = .ok .SUCCESS ∨
    (on_init true 0 goodInfo sys₀).map Prod.snd = .ok .ERROR :=
  (@init_validates_interface_shape 0 goodInfo sys₀ (by decide) 17 27 3436
    (by rfl) (by rfl) (by rfl)).2

/-- Claim C10: `on_init` never checks the number of joints: any
configuration whose parameters parse and whose daemon connection
succeeds yields `SUCCESS` for any joint count — zero, one, or more than
two — as long as each declared joint individually conforms. -/
theorem init_accepts_any_joint_count (piResult : Int) (info : HardwareInfo)
    (s : Sys) (hpi : 0 ≤ piResult) {lpin rpin : Int} {cpr : Nat}
    (hl : stoi (getParam info.hardware_parameters "left_wheel_pin") = .ok lpin)
    (hr : stoi (getParam info.hardware_parameters "right_wheel_pin") = .ok rpin)
    (hc : stoul (getParam info.hardware_parameters "enc_counts_per_rev") = .ok cpr)
    (hall : ∀ j ∈ info.joints, jointOk j = true) :
    (on_init true piResult info s).map Prod.snd = .ok .SUCCESS := by
  rw [on_init_eval piResult info s hpi hl hr hc]
  simp only [Except.map, Except.ok.injEq]
  exact (checkJoints_eq_success_iff _).mpr hall

/-- Well-formed parameters with an empty joint list. -/
def emptyJointsInfo : HardwareInfo :=
  { hardware_parameters := baseParams, joints := [] }

/-- Well-formed parameters with three conforming joints. -/
def threeJointsInfo : HardwareInfo :=
  { hardware_parameters := baseParams,
    joints := [goodJoint "left_wheel", goodJoint "right_wheel",
               goodJoint "extra_wheel"] }

theorem init_accepts_any_joint_count_witness :
    (on_init true 0 emptyJointsInfo sys₀).map Prod.snd = .ok .SUCCESS ∧
    (on_init true 0 threeJointsInfo sys₀).map Prod.snd = .ok .SUCCESS :=
  ⟨@init_accepts_any_joint_count 0 emptyJointsInfo sys₀ (by decide) 17 27 3436
     (by rfl) (by rfl) (by rfl) (by decide),
   @init_accepts_any_joint_count 0 threeJointsInfo sys₀ (by decide) 17 27 3436
     (by rfl) (by rfl) (by rfl) (by decide)⟩

end DiffDrive
